import Mathlib

/-!
Verification of the EdUTEND attendance backend (Express + Mongoose).

Shallow embedding of the code that the QR attendance session lifecycle
claims are about:

* `backend/models/QR.js` - the QR session schema, its instance methods
  (expire, cancel, recordScan), the pre-save hook, and cleanupExpired;
* `backend/routes/qr.js` - the GET /api/qr/generate, GET /api/qr/validate
  and PUT /api/qr/:id/expire handlers;
* the Attendance model (compound unique index on (studentId, courseId, date),
  pre-save date normalization) and the GET /api/attendance/mark handler in
  `backend/routes/attendance.js`;
* the auth middleware (requireLecturer = requireRole [admin, lecturer]).

Modelling conventions:

* JS Date values are milliseconds since the epoch (`Time := Nat`).
* Mongo ObjectId values are `Nat`; id comparisons in the code
  (e.g. `course.lecturer.toString() === req.user.userId`) are modelled
  as equality of these ids.
* Query-string parameters are `Option` values (absent = `none`); JS
  string truthiness (`if (notes)`) is modelled by `strTruthy`.
* The persistent store is a record of lists; the unique index of the
  Attendance collection is modelled as a check performed at every write,
  exactly as MongoDB enforces it: an insert or update whose key collides
  with another stored document fails, which the route surfaces as a 500.
* Mongoose required-field validation runs at save: a document missing a
  `required: true` path fails validation, which the route surfaces as 500.
* Each route handler is a pure function from (authenticated caller, query,
  current time, store) to (result, store).
-/

namespace EdUTEND

/-- Milliseconds since the Unix epoch, as JS `Date.now()` produces. -/
abbrev Time := Nat

/-- The role enum of the user schema. -/
inductive Role
  | admin
  | lecturer
  | student
deriving DecidableEq, Repr

/-- The `req.user` object built by the authenticateToken middleware:
the caller's id and role (name/email are not read by these routes). -/
structure AuthUser where
  userId : Nat
  role : Role
deriving DecidableEq, Repr

/-- A stored user document (the fields these routes read). -/
structure User where
  id : Nat
  name : String
  role : Role
deriving DecidableEq, Repr

/-- Enrollment status of a student entry in a course document. -/
inductive EnrollStatus
  | active
  | dropped
  | completed
deriving DecidableEq, Repr

/-- One entry of `course.students` (the validate route only reads
`.student`; the status field is carried but never consulted there). -/
structure StudentEntry where
  student : Nat
  status : EnrollStatus
deriving DecidableEq, Repr

/-- A stored course document (the fields these routes read). -/
structure Course where
  id : Nat
  name : String
  code : String
  lecturer : Nat
  students : List StudentEntry
deriving DecidableEq, Repr

/-- The status enum of the QR session schema. -/
inductive QRStatus
  | active
  | expired
  | cancelled
deriving DecidableEq, Repr

/-- A stored QR session document (`backend/models/QR.js`).  `qrCodeData`
is `required: true` in the schema but is an `Option` here because a
document can be constructed without it; Mongoose validation at save
rejects such a document (see `qrRequiredOk`). -/
structure QRSession where
  id : Nat
  sessionId : String
  courseId : Nat
  createdBy : Nat
  title : String
  notes : String
  status : QRStatus
  expiresAt : Time
  qrCodeData : Option String
  scannedCount : Nat
  lastScannedAt : Option Time
  createdAt : Time
deriving DecidableEq, Repr

/-- The status enum of the attendance schema. -/
inductive AttStatus
  | present
  | absent
  | late
  | excused
deriving DecidableEq, Repr

/-- A stored attendance record (the Attendance model). -/
structure AttendanceRecord where
  studentId : Nat
  courseId : Nat
  date : Time
  status : AttStatus
  notes : Option String
  markedBy : Nat
  qrSessionId : Option Nat
  createdAt : Time
  updatedAt : Time
deriving DecidableEq, Repr

/-- The persistent store (one MongoDB database). -/
structure Store where
  users : List User
  courses : List Course
  qrSessions : List QRSession
  attendance : List AttendanceRecord
deriving DecidableEq, Repr

/-- JS truthiness of an optional string query parameter:
`undefined` and the empty string are falsy. -/
def strTruthy : Option String → Bool
  | none => false
  | some s => s != ""

/-! ## Attendance model and GET /api/attendance/mark -/

/-- One day in milliseconds. -/
def msPerDay : Nat := 86400000

/-- The attendance pre-save hook normalizes the date to the start of its
day: `this.date.setHours(0, 0, 0, 0)`. -/
def startOfDay (t : Time) : Time := t / msPerDay * msPerDay

/-- The compound key of the unique index
`{ studentId: 1, courseId: 1, date: 1 }` of the attendance schema. -/
def attKey (r : AttendanceRecord) : Nat × Nat × Time :=
  (r.studentId, r.courseId, r.date)

/-- The `findOne({ studentId, courseId, date: new Date(date) })` predicate
of the mark route: exact match on the raw request date. -/
def findOneKey (sid cid : Nat) (d : Time) (r : AttendanceRecord) : Bool :=
  r.studentId == sid && r.courseId == cid && r.date == d

/-- Two records collide on the unique index. -/
def sameKey (a b : AttendanceRecord) : Bool :=
  a.studentId == b.studentId && a.courseId == b.courseId && a.date == b.date

/-- The query parameters of GET /api/attendance/mark. -/
structure MarkQuery where
  studentId : Option Nat
  courseId : Option Nat
  date : Option Time
  status : Option String
  notes : Option String
deriving Repr

/-- Parsing of the status parameter against
`['present', 'absent', 'late', 'excused']`. -/
def parseAttStatus : String → Option AttStatus
  | "present" => some AttStatus.present
  | "absent" => some AttStatus.absent
  | "late" => some AttStatus.late
  | "excused" => some AttStatus.excused
  | _ => none

/-- The possible responses of GET /api/attendance/mark.  The handler has
no authorization branch beyond authenticateToken: there is no Forbidden
outcome. `serverError` is the 500 produced when the save is rejected by
the unique index. -/
inductive MarkResult
  | missingParams
  | invalidStatus
  | studentNotFound
  | courseNotFound
  | updated (r : AttendanceRecord)
  | created (r : AttendanceRecord)
  | serverError
deriving DecidableEq, Repr

/-- The document state the update path of the mark route saves:
overwrite `status`; overwrite `notes` only when the notes parameter is
truthy; set `updatedAt`; the pre-save hook normalizes the date.
`markedBy` and `qrSessionId` are NOT touched by the route. -/
def updateRecord (existing : AttendanceRecord) (st : AttStatus)
    (notes : Option String) (now : Time) : AttendanceRecord :=
  { existing with
      status := st
      notes := if strTruthy notes then notes else existing.notes
      updatedAt := now
      date := startOfDay existing.date }

/-- The document the create path of the mark route saves: a fresh record
with `markedBy := caller` and no `qrSessionId` (the route has no session
parameter), date normalized by the pre-save hook. -/
def newRecord (u : AuthUser) (sid cid : Nat) (d : Time) (st : AttStatus)
    (notes : Option String) (now : Time) : AttendanceRecord :=
  { studentId := sid
    courseId := cid
    date := startOfDay d
    status := st
    notes := notes
    markedBy := u.userId
    qrSessionId := none
    createdAt := now
    updatedAt := now }

/-- The update-or-create tail of the mark route, after all validations.
The save succeeds only if the written document collides with no OTHER
stored record on the unique index (MongoDB rejects the write otherwise,
which the route surfaces as a 500). -/
def markUpsert (u : AuthUser) (sid cid : Nat) (d : Time) (st : AttStatus)
    (notes : Option String) (now : Time) (s : Store) : MarkResult × Store :=
  match s.attendance.find? (findOneKey sid cid d) with
  | some existing =>
      if (s.attendance.eraseP (findOneKey sid cid d)).all
          (fun r => !(sameKey r (updateRecord existing st notes now))) then
        (MarkResult.updated (updateRecord existing st notes now),
          { s with attendance := updateRecord existing st notes now ::
              s.attendance.eraseP (findOneKey sid cid d) })
      else
        (MarkResult.serverError, s)
  | none =>
      if s.attendance.all
          (fun r => !(sameKey r (newRecord u sid cid d st notes now))) then
        (MarkResult.created (newRecord u sid cid d st notes now),
          { s with attendance :=
              newRecord u sid cid d st notes now :: s.attendance })
      else
        (MarkResult.serverError, s)

/-- GET /api/attendance/mark (`backend/routes/attendance.js`): validate
presence of parameters, the status enum, the student (must exist with
role student) and the course, then update-or-create the record for the
(studentId, courseId, date) key.  No role or ownership check is made on
the calling actor. -/
def mark (u : AuthUser) (q : MarkQuery) (now : Time) (s : Store) :
    MarkResult × Store :=
  match q.studentId, q.courseId, q.date, q.status with
  | some sid, some cid, some d, some stStr =>
      match parseAttStatus stStr with
      | none => (MarkResult.invalidStatus, s)
      | some st =>
          match s.users.find? (fun usr => usr.id == sid) with
          | none => (MarkResult.studentNotFound, s)
          | some stu =>
              if stu.role = Role.student then
                match s.courses.find? (fun c => c.id == cid) with
                | none => (MarkResult.courseNotFound, s)
                | some _ => markUpsert u sid cid d st q.notes now s
              else (MarkResult.studentNotFound, s)
  | _, _, _, _ => (MarkResult.missingParams, s)

/-- One call of the mark endpoint. -/
structure MarkCall where
  user : AuthUser
  query : MarkQuery
  now : Time

/-- A sequence of mark calls, applied left to right to the store. -/
def markMany (calls : List MarkCall) (s : Store) : Store :=
  calls.foldl (fun st c => (mark c.user c.query c.now st).2) s

/-- The store-level uniqueness invariant of the attendance collection:
no two stored records share the compound key. -/
def attUnique (s : Store) : Prop :=
  s.attendance.Pairwise (fun a b => attKey a ≠ attKey b)

/-! ## QR model operations (`backend/models/QR.js`) -/

/-- The pre-save hook of the QR schema: if the current time is strictly
past `expiresAt`, force the stored status to expired before the write. -/
def applyQRSaveHook (now : Time) (q : QRSession) : QRSession :=
  if now > q.expiresAt then { q with status := QRStatus.expired } else q

/-- Mongoose required-field validation of a QR document at save.  Every
path of the schema marked `required: true` is populated by construction
in this embedding except `qrCodeData`, which the generate route never
sets; so validation reduces to that one check. -/
def qrRequiredOk (q : QRSession) : Bool := q.qrCodeData.isSome

/-- `qrSchema.methods.expire`: set status to expired, reset `expiresAt`
to now, and save (the pre-save hook runs). -/
def qrExpireMethod (now : Time) (q : QRSession) : QRSession :=
  applyQRSaveHook now { q with status := QRStatus.expired, expiresAt := now }

/-- `qrSchema.methods.cancel`: set status to cancelled and save. -/
def qrCancelMethod (now : Time) (q : QRSession) : QRSession :=
  applyQRSaveHook now { q with status := QRStatus.cancelled }

/-- `qrSchema.methods.recordScan`: increment the scan counter, set the
last-scan timestamp, and save.  (No route in the repository invokes this
method.) -/
def qrRecordScan (now : Time) (q : QRSession) : QRSession :=
  applyQRSaveHook now
    { q with scannedCount := q.scannedCount + 1, lastScannedAt := some now }

/-- The per-session effect of `qrSchema.statics.cleanupExpired`: sessions
matching `{ status: active, expiresAt: { $lt: now } }` are set to expired
and saved; others are untouched. -/
def qrCleanupOne (now : Time) (q : QRSession) : QRSession :=
  if q.status = QRStatus.active ∧ q.expiresAt < now then
    applyQRSaveHook now { q with status := QRStatus.expired }
  else q

/-- Every write path of the code that touches one stored QR session:
a plain save (hook only), the expire instance method, the cancel instance
method, recordScan, the PUT /api/qr/:id/expire route body, and the
cleanupExpired sweep.  The validate route performs no write to the
session (see `validate`), and generate only creates fresh documents. -/
inductive QROp
  | save
  | expireMethod
  | cancelMethod
  | recordScan
  | expireRoute
  | cleanup
deriving DecidableEq, Repr

/-- The state change a single operation performs on one stored session.
The PUT /api/qr/:id/expire body is the same mutation as the expire
instance method: status := expired, expiresAt := now, save. -/
def stepQR (op : QROp) (now : Time) (q : QRSession) : QRSession :=
  match op with
  | QROp.save => applyQRSaveHook now q
  | QROp.expireMethod => qrExpireMethod now q
  | QROp.cancelMethod => qrCancelMethod now q
  | QROp.recordScan => qrRecordScan now q
  | QROp.expireRoute => qrExpireMethod now q
  | QROp.cleanup => qrCleanupOne now q

/-- A sequence of timed operations applied to one stored session. -/
def applyQROps (ops : List (QROp × Time)) (q : QRSession) : QRSession :=
  ops.foldl (fun st op => stepQR op.1 op.2 st) q

/-! ## GET /api/qr/validate (`backend/routes/qr.js`) -/

/-- The JSON payload embedded in the QR image at generation:
`{ sessionId: qrSession._id, courseId, expiresAt }`. -/
structure QRPayload where
  sessionId : Nat
  courseId : Nat
  expiresAt : Time
deriving DecidableEq, Repr

/-- The qrCode query parameter of the validate route: absent, present but
not valid JSON of the expected shape, or parsed. -/
inductive QRParam
  | missing
  | malformed
  | parsed (p : QRPayload)
deriving DecidableEq, Repr

/-- The possible responses of GET /api/qr/validate.  The expired and
notActive failures carry the data object the route returns for client
display; `ok` carries the descriptive fields of the 200 response.
`serverError` is the 500 raised when building the 200 body dereferences
a populate that found no document. -/
inductive ValidateResult
  | missingQr
  | invalidFormat
  | sessionNotFound
  | expired (sessionId courseId : Nat) (expiresAt : Time)
  | notActive (sessionId courseId : Nat) (status : QRStatus)
  | notEnrolled
  | ok (sessionId courseId : Nat) (courseName courseCode : String)
      (expiresAt : Time) (title notes createdByName : String)
  | serverError
deriving DecidableEq, Repr

/-- The enrollment check of the validate route, performed against the
course id taken from the payload (not from the stored session):
`!course || !course.students.some(s => s.student === userId)` fails. -/
def enrolledInPayloadCourse (s : Store) (cid uid : Nat) : Bool :=
  match s.courses.find? (fun c => c.id == cid) with
  | none => false
  | some c => c.students.any (fun e => e.student == uid)

/-- GET /api/qr/validate: parse the payload, look the session up by the
payload's sessionId, compare now against the payload's `expiresAt` (the
stored `expiresAt` is not consulted), require stored status active,
check enrollment only for student callers and only against the payload's
courseId, then answer with descriptive fields.  The handler performs no
write: the store is returned unchanged on every path. -/
def validate (u : AuthUser) (q : QRParam) (now : Time) (s : Store) :
    ValidateResult × Store :=
  match q with
  | QRParam.missing => (ValidateResult.missingQr, s)
  | QRParam.malformed => (ValidateResult.invalidFormat, s)
  | QRParam.parsed p =>
      match s.qrSessions.find? (fun sess => sess.id == p.sessionId) with
      | none => (ValidateResult.sessionNotFound, s)
      | some sess =>
          if now > p.expiresAt then
            (ValidateResult.expired p.sessionId p.courseId p.expiresAt, s)
          else if sess.status ≠ QRStatus.active then
            (ValidateResult.notActive p.sessionId p.courseId sess.status, s)
          else if u.role = Role.student ∧
              enrolledInPayloadCourse s p.courseId u.userId = false then
            (ValidateResult.notEnrolled, s)
          else
            match s.courses.find? (fun c => c.id == sess.courseId),
                s.users.find? (fun usr => usr.id == sess.createdBy) with
            | some c, some creator =>
                (ValidateResult.ok p.sessionId p.courseId c.name c.code
                  sess.expiresAt sess.title sess.notes creator.name, s)
            | _, _ => (ValidateResult.serverError, s)

/-! ## GET /api/qr/generate (`backend/routes/qr.js`) -/

/-- The query parameters of the generate route.  `duration` is the
result of `parseInt`: `none` covers an absent parameter (a NaN parse is
likewise rejected, through the range check). -/
structure GenQuery where
  courseId : Option Nat
  duration : Option Int
  title : Option String
  notes : Option String
deriving Repr

/-- The possible responses of GET /api/qr/generate. -/
inductive GenResult
  | insufficientPermissions
  | missingParams
  | invalidDuration
  | courseNotFound
  | forbiddenNotOwner
  | success (sess : QRSession) (qrCodeImage : String)
  | serverError
deriving DecidableEq, Repr

/-- The JSON string the route feeds to the QR renderer:
`JSON.stringify({ sessionId: qrSession._id, courseId, expiresAt })`. -/
def qrImagePayload (id cid : Nat) (expiresAt : Time) : String :=
  "\x7bsessionId:" ++ toString id ++ ",courseId:" ++ toString cid ++
    ",expiresAt:" ++ toString expiresAt ++ "\x7d"

/-- The QR rendering collaborator (`QRCode.toDataURL`), modelled as a
pure function of the payload string. -/
def qrToDataURL (payload : String) : String :=
  "data:image/png;base64," ++ payload

/-- GET /api/qr/generate: requireLecturer admits roles admin and
lecturer; courseId and duration are required; duration must lie in
[1, 480]; the course must exist; a lecturer caller must own the course.
The new document is built WITHOUT `qrCodeData` (the route never sets
that schema-required path; the image string is computed only after the
save, for the response), so the save is validated by `qrRequiredOk`. -/
def generate (u : AuthUser) (q : GenQuery) (newId : Nat)
    (newSessionId : String) (now : Time) (s : Store) : GenResult × Store :=
  if u.role = Role.admin ∨ u.role = Role.lecturer then
    match q.courseId, q.duration with
    | some cid, some dur =>
        if dur < 1 ∨ dur > 480 then (GenResult.invalidDuration, s)
        else
          match s.courses.find? (fun c => c.id == cid) with
          | none => (GenResult.courseNotFound, s)
          | some course =>
              if u.role = Role.lecturer ∧ course.lecturer ≠ u.userId then
                (GenResult.forbiddenNotOwner, s)
              else
                let doc : QRSession :=
                  { id := newId
                    sessionId := newSessionId
                    courseId := cid
                    createdBy := u.userId
                    title := if strTruthy q.title then q.title.getD ""
                      else "Attendance Session - " ++ course.name
                    notes := q.notes.getD ""
                    status := QRStatus.active
                    expiresAt := now + dur.toNat * 60000
                    qrCodeData := none
                    scannedCount := 0
                    lastScannedAt := none
                    createdAt := now }
                if qrRequiredOk doc then
                  let saved := applyQRSaveHook now doc
                  (GenResult.success saved
                      (qrToDataURL (qrImagePayload saved.id cid saved.expiresAt)),
                    { s with qrSessions := saved :: s.qrSessions })
                else (GenResult.serverError, s)
    | _, _ => (GenResult.missingParams, s)
  else (GenResult.insufficientPermissions, s)

/-! ## PUT /api/qr/:id/expire (`backend/routes/qr.js`) -/

/-- The possible responses of PUT /api/qr/:id/expire. -/
inductive ExpireResult
  | insufficientPermissions
  | notFound
  | forbiddenNotOwner
  | success (sess : QRSession)
deriving DecidableEq, Repr

/-- PUT /api/qr/:id/expire: requireLecturer admits admin and lecturer;
the session is looked up by id; a lecturer caller must be its creator;
then, WITHOUT inspecting the current status, the route sets status to
expired and `expiresAt` to now and saves.  There is no terminal-state
guard: the same mutation is applied to active, expired and cancelled
sessions alike. -/
def expireRoute (u : AuthUser) (id : Nat) (now : Time) (s : Store) :
    ExpireResult × Store :=
  if u.role = Role.admin ∨ u.role = Role.lecturer then
    match s.qrSessions.find? (fun sess => sess.id == id) with
    | none => (ExpireResult.notFound, s)
    | some sess =>
        if u.role = Role.lecturer ∧ sess.createdBy ≠ u.userId then
          (ExpireResult.forbiddenNotOwner, s)
        else
          let updated := qrExpireMethod now sess
          (ExpireResult.success updated,
            { s with qrSessions :=
                s.qrSessions.map (fun x => if x.id == id then updated else x) })
  else (ExpireResult.insufficientPermissions, s)

/-! ## Concrete fixtures used by counterexamples and witnesses -/

/-- An admin, a student (id 10) and a lecturer (id 30). -/
def fxUsers : List User :=
  [⟨1, "A", Role.admin⟩, ⟨10, "S", Role.student⟩, ⟨30, "L", Role.lecturer⟩]

/-- A course owned by lecturer 30 with student 10 enrolled. -/
def fxCourse : Course := ⟨20, "C", "CC", 30, [⟨10, EnrollStatus.active⟩]⟩

/-- A stored session flagged active whose stored expiry is time 100. -/
def fxSessActive : QRSession :=
  ⟨1, "s1", 20, 30, "T", "", QRStatus.active, 100, some "img", 0, none, 0⟩

/-- A stored session in the cancelled terminal state. -/
def fxSessCancelled : QRSession :=
  ⟨2, "s2", 20, 30, "T", "", QRStatus.cancelled, 100, some "img", 0, none, 0⟩

/-- A store holding both sessions and no attendance records. -/
def fxStore : Store := ⟨fxUsers, [fxCourse], [fxSessActive, fxSessCancelled], []⟩

/-- An attendance record for (student 10, course 20, day 0), marked by
actor 7 from QR session 1, with a note. -/
def fxRec : AttendanceRecord :=
  ⟨10, 20, 0, AttStatus.present, some "orig", 7, some 1, 0, 0⟩

/-- A store whose attendance collection holds exactly `fxRec`. -/
def fxMarkStore : Store := ⟨fxUsers, [fxCourse], [fxSessActive], [fxRec]⟩

/-! ## Theorems -/

/-- Helper: the QR pre-save hook either keeps the status or forces it to
expired; it never produces an active status from a non-active one. -/
lemma applyQRSaveHook_status (now : Time) (q : QRSession) :
    (applyQRSaveHook now q).status = q.status ∨
      (applyQRSaveHook now q).status = QRStatus.expired := by
  unfold applyQRSaveHook
  split
  · exact Or.inr rfl
  · exact Or.inl rfl

/-- Helper: the save hook never produces an active status from a
document whose status is not active. -/
lemma applyQRSaveHook_not_active (now : Time) (q : QRSession)
    (h : q.status ≠ QRStatus.active) :
    (applyQRSaveHook now q).status ≠ QRStatus.active := by
  rcases applyQRSaveHook_status now q with h1 | h1 <;> rw [h1] <;> simp [h]

/-- Helper: no single write operation returns a non-active session to
the active status. -/
lemma stepQR_preserves_nonactive (op : QROp) (now : Time) (q : QRSession)
    (h : q.status ≠ QRStatus.active) :
    (stepQR op now q).status ≠ QRStatus.active := by
  cases op with
  | save => exact applyQRSaveHook_not_active now q h
  | expireMethod => exact applyQRSaveHook_not_active now _ (by simp)
  | cancelMethod => exact applyQRSaveHook_not_active now _ (by simp)
  | recordScan => exact applyQRSaveHook_not_active now _ (by simpa using h)
  | expireRoute => exact applyQRSaveHook_not_active now _ (by simp)
  | cleanup =>
      simp only [stepQR, qrCleanupOne]
      split
      · exact applyQRSaveHook_not_active now _ (by simp)
      · exact h

/-- C10: whenever a QR session document goes through the model save path
at a moment strictly past its own expiry timestamp, the pre-save hook of
`backend/models/QR.js` forces the stored status to expired before the
write; hence no save stores a session as active with an already-passed
expiry. -/
theorem C10_save_hook_forces_expired (q : QRSession) (now : Time)
    (h : now > q.expiresAt) :
    (applyQRSaveHook now q).status = QRStatus.expired := by
  unfold applyQRSaveHook
  rw [if_pos h]

/-- Witness for C10 at a concrete input: saving `fxSessActive` (stored
expiry 100, status active) at time 200 stores it as expired. -/
theorem C10_save_hook_forces_expired_witness :
    (200 : Time) > fxSessActive.expiresAt ∧
      (applyQRSaveHook 200 fxSessActive).status = QRStatus.expired :=
  ⟨by decide, C10_save_hook_forces_expired fxSessActive 200 (by decide)⟩

/-- C6: session lifecycle state is monotonic.  Over every sequence of
the write operations the code can perform on a stored session (plain
save, the expire and cancel instance methods, recordScan, the manual
expire route body, the cleanupExpired sweep), a session that has left
the active state never returns to it.  The validate route performs no
write at all (`C3` amendment) and generate only creates fresh documents,
so these operations are the complete set. -/
theorem C6_status_monotonic (ops : List (QROp × Time)) (q : QRSession)
    (h : q.status ≠ QRStatus.active) :
    (applyQROps ops q).status ≠ QRStatus.active := by
  induction ops generalizing q with
  | nil => simpa [applyQROps] using h
  | cons op rest ih =>
      have h1 := stepQR_preserves_nonactive op.1 op.2 q h
      simpa [applyQROps, List.foldl_cons] using ih _ h1

/-- Witness for C6 at a concrete input: the cancelled session stays
non-active across a save followed by a recordScan and a cleanup pass. -/
theorem C6_status_monotonic_witness :
    fxSessCancelled.status ≠ QRStatus.active ∧
      (applyQROps [(QROp.save, 500), (QROp.recordScan, 600),
          (QROp.cleanup, 700)] fxSessCancelled).status ≠ QRStatus.active :=
  ⟨by decide, C6_status_monotonic _ fxSessCancelled (by decide)⟩

/-- Counterexample to C2 as stated: `fxSessActive` has stored expiry 100,
which is in the past at call time 200, and its stored state flag is
active.  A validate call whose payload carries a future expiry (300)
does NOT fail with the session-expired error - it answers 200 ok - and
the stored state is left active: the route compares the clock against
the payload expiry, not the stored one, and never writes. -/
theorem C2_counterexample :
    (validate ⟨30, Role.lecturer⟩ (QRParam.parsed ⟨1, 20, 300⟩) 200
        fxStore).1 = ValidateResult.ok 1 20 "C" "CC" 100 "T" "" "L" ∧
      (validate ⟨30, Role.lecturer⟩ (QRParam.parsed ⟨1, 20, 300⟩) 200
        fxStore).2 = fxStore :=
  ⟨rfl, rfl⟩

/-- C2 as amended: the expiry check of GET /api/qr/validate compares the
current time against the expiry carried in the PAYLOAD; when that is in
the past (and the referenced session exists) the call fails with the
expired error, returning the payload sessionId/courseId/expiry for
client display, and the store is returned unchanged - the stored state
flag is never transitioned by this route. -/
theorem C2_amended_payload_expiry (u : AuthUser) (p : QRPayload)
    (now : Time) (s : Store) (sess : QRSession)
    (hf : s.qrSessions.find? (fun x => x.id == p.sessionId) = some sess)
    (hexp : now > p.expiresAt) :
    validate u (QRParam.parsed p) now s =
      (ValidateResult.expired p.sessionId p.courseId p.expiresAt, s) := by
  simp only [validate, hf, if_pos hexp]

/-- Witness for the amended C2 at a concrete input: payload expiry 150
is past at time 200, so the call fails expired (even though it also is
past the stored expiry 100), and the store is unchanged. -/
theorem C2_amended_payload_expiry_witness :
    fxStore.qrSessions.find? (fun x => x.id == (1 : Nat)) =
        some fxSessActive ∧ (200 : Time) > 150 ∧
      validate ⟨30, Role.lecturer⟩ (QRParam.parsed ⟨1, 20, 150⟩) 200
          fxStore = (ValidateResult.expired 1 20 150, fxStore) :=
  ⟨rfl, by decide,
    C2_amended_payload_expiry ⟨30, Role.lecturer⟩ ⟨1, 20, 150⟩ 200 fxStore
      fxSessActive rfl (by decide)⟩

/-- Counterexample to C3 as stated: a fully successful validate call
(valid payload for the active, unexpired session 1; scanner 10 is a
student enrolled in course 20) answers 200 ok, yet the store is
completely unchanged: the scan counter is still 0, no last-scan
timestamp is set, and the attendance collection is still empty.  The
route neither calls recordScan nor upserts any attendance record. -/
theorem C3_counterexample :
    (validate ⟨10, Role.student⟩ (QRParam.parsed ⟨1, 20, 100⟩) 50
        fxStore).1 = ValidateResult.ok 1 20 "C" "CC" 100 "T" "" "L" ∧
      (validate ⟨10, Role.student⟩ (QRParam.parsed ⟨1, 20, 100⟩) 50
        fxStore).2 = fxStore ∧
      ((validate ⟨10, Role.student⟩ (QRParam.parsed ⟨1, 20, 100⟩) 50
          fxStore).2.qrSessions.find? (fun x => x.id == 1)).map
        QRSession.scannedCount = some 0 ∧
      (validate ⟨10, Role.student⟩ (QRParam.parsed ⟨1, 20, 100⟩) 50
        fxStore).2.attendance = [] :=
  ⟨rfl, rfl, rfl, rfl⟩

/-- C3 as amended: GET /api/qr/validate is a pure read.  On every input
(success or failure) it returns the store unchanged: it does not
increment the scan counter, does not set the last-scan timestamp, and
does not create or update any attendance record.  (The model method
recordScan exists but no route invokes it; attendance marking happens
only through the separate GET /api/attendance/mark call issued by the
client.) -/
theorem C3_amended_validate_is_pure (u : AuthUser) (q : QRParam)
    (now : Time) (s : Store) :
    (validate u q now s).2 = s := by
  unfold validate
  repeat' split <;> try rfl

/-- Counterexample to C7 as stated: the manual expire route applied (by
an admin) to the already-terminal CANCELLED session 2 succeeds, but it
is not a no-op: the stored state flag is overwritten from cancelled to
expired and the stored expiry timestamp is reset from 100 to the call
time 200. -/
theorem C7_counterexample :
    (expireRoute ⟨1, Role.admin⟩ 2 200 fxStore).1 =
        ExpireResult.success
          { fxSessCancelled with
              status := QRStatus.expired
              expiresAt := 200 } ∧
      ((expireRoute ⟨1, Role.admin⟩ 2 200 fxStore).2.qrSessions.find?
          (fun x => x.id == 2)).map QRSession.status =
        some QRStatus.expired :=
  ⟨rfl, rfl⟩

/-- C7 as amended: PUT /api/qr/:id/expire on an already-terminal session
succeeds but unconditionally overwrites: the stored status becomes
expired (replacing cancelled when that was the state) and the stored
expiry timestamp is reset to the call time; all other fields are kept.
It is idempotent only in the weak sense that the status of an
already-expired session stays expired. -/
theorem C7_amended_expire_overwrites (u : AuthUser) (id : Nat)
    (now : Time) (s : Store) (sess : QRSession)
    (hauth : u.role = Role.admin ∨
      (u.role = Role.lecturer ∧ sess.createdBy = u.userId))
    (hf : s.qrSessions.find? (fun x => x.id == id) = some sess)
    (_hterm : sess.status ≠ QRStatus.active) :
    expireRoute u id now s =
      (ExpireResult.success
          { sess with status := QRStatus.expired, expiresAt := now },
        { s with qrSessions := s.qrSessions.map (fun x =>
            if x.id == id then
              { sess with status := QRStatus.expired, expiresAt := now }
            else x) }) := by
  have h1 : u.role = Role.admin ∨ u.role = Role.lecturer := by
    rcases hauth with h | ⟨h, _⟩
    · exact Or.inl h
    · exact Or.inr h
  have h2 : ¬(u.role = Role.lecturer ∧ sess.createdBy ≠ u.userId) := by
    rcases hauth with h | ⟨h, hown⟩
    · rintro ⟨hl, _⟩
      rw [h] at hl
      exact Role.noConfusion hl
    · rintro ⟨_, hne⟩
      exact hne hown
  simp only [expireRoute, if_pos h1, hf, if_neg h2]
  simp [qrExpireMethod, applyQRSaveHook]

/-- Witness for the amended C7 at a concrete input: admin 1 expires the
cancelled session 2 at time 200. -/
theorem C7_amended_expire_overwrites_witness :
    fxStore.qrSessions.find? (fun x => x.id == (2 : Nat)) =
        some fxSessCancelled ∧
      fxSessCancelled.status ≠ QRStatus.active ∧
      expireRoute ⟨1, Role.admin⟩ 2 200 fxStore =
        (ExpireResult.success
            { fxSessCancelled with
                status := QRStatus.expired
                expiresAt := 200 },
          { fxStore with qrSessions := fxStore.qrSessions.map (fun x =>
              if x.id == 2 then
                { fxSessCancelled with
                    status := QRStatus.expired
                    expiresAt := 200 }
              else x) }) :=
  ⟨rfl, by decide,
    C7_amended_expire_overwrites ⟨1, Role.admin⟩ 2 200 fxStore
      fxSessCancelled (Or.inl rfl) rfl (by decide)⟩

/-- Counterexample to C8 as stated: scanner 99 (role lecturer) is not
enrolled in course 20 - the course document lists only student 10 - yet
the validate call for session 1 answers 200 ok rather than failing with
not-enrolled: the enrollment check runs only for callers whose role is
student. -/
theorem C8_counterexample :
    (validate ⟨99, Role.lecturer⟩ (QRParam.parsed ⟨1, 20, 100⟩) 50
        fxStore).1 = ValidateResult.ok 1 20 "C" "CC" 100 "T" "" "L" :=
  rfl

/-- C8 as amended: the not-enrolled failure of GET /api/qr/validate is
produced exactly for callers of role student, and the membership test is
made against the course named by the PAYLOAD courseId (not the stored
session courseId): when that course is absent or does not list the
scanner, the call fails not-enrolled and the store is unchanged (no
attendance is recorded on any path, see the C3 amendment). -/
theorem C8_amended_student_payload_course (u : AuthUser) (p : QRPayload)
    (now : Time) (s : Store) (sess : QRSession)
    (hrole : u.role = Role.student)
    (hf : s.qrSessions.find? (fun x => x.id == p.sessionId) = some sess)
    (hexp : ¬now > p.expiresAt)
    (hact : sess.status = QRStatus.active)
    (henr : enrolledInPayloadCourse s p.courseId u.userId = false) :
    validate u (QRParam.parsed p) now s = (ValidateResult.notEnrolled, s) := by
  simp only [validate, hf]
  rw [if_neg hexp, if_neg (by simp [hact]), if_pos ⟨hrole, henr⟩]

/-- Witness for the amended C8 at a concrete input: student 55 is not in
the student list of course 20, so scanning the valid payload of the
active session 1 fails not-enrolled. -/
theorem C8_amended_student_payload_course_witness :
    fxStore.qrSessions.find? (fun x => x.id == (1 : Nat)) =
        some fxSessActive ∧
      fxSessActive.status = QRStatus.active ∧
      enrolledInPayloadCourse fxStore 20 55 = false ∧
      validate ⟨55, Role.student⟩ (QRParam.parsed ⟨1, 20, 100⟩) 50 fxStore =
        (ValidateResult.notEnrolled, fxStore) :=
  ⟨rfl, rfl, by decide,
    C8_amended_student_payload_course ⟨55, Role.student⟩ ⟨1, 20, 100⟩ 50
      fxStore fxSessActive rfl rfl (by decide) rfl (by decide)⟩

/-- Counterexample to C9 as stated: actor 10 has role student, is not
the instructor of course 20 (lecturer 30 is), is not an administrator,
and is not the system acting on a scan - yet the mark call succeeds,
creating an attendance record for day 1 (date `msPerDay`).  The mark
route has no marking-rights branch at all: no input produces a
Forbidden response, and any authenticated actor creates or modifies
records. -/
theorem C9_counterexample :
    (mark ⟨10, Role.student⟩
        ⟨some 10, some 20, some msPerDay, some "present", none⟩ 5
        fxMarkStore).1 =
      MarkResult.created
        ⟨10, 20, msPerDay, AttStatus.present, none, 10, none, 5, 5⟩ ∧
      (mark ⟨10, Role.student⟩
          ⟨some 10, some 20, some msPerDay, some "present", none⟩ 5
          fxMarkStore).2.attendance.length = 2 :=
  ⟨rfl, rfl⟩

/-- C9 as amended: GET /api/attendance/mark performs no authorization
check beyond token authentication.  The outcome of a mark call never
depends on the calling actor's role: two callers with the same id and
any two roles obtain identical results and identical stores.  There is
no Forbidden error condition. -/
theorem C9_amended_mark_is_role_blind (uid : Nat) (r1 r2 : Role)
    (q : MarkQuery) (now : Time) (s : Store) :
    mark ⟨uid, r1⟩ q now s = mark ⟨uid, r2⟩ q now s := rfl

/-- C4 as stated fails on the code: the generate route never persists a
session.  It builds the new QR document without the schema-required
`qrCodeData` path (the image payload string is only computed after the
save call, for the response body), so Mongoose validation rejects every
save and the route answers 500.  This theorem evaluates the embedded
route on ALL inputs: no call ever returns the success response and the
store is never changed - in particular a valid request by an
administrator for an existing course with duration 60 fails. -/
theorem C4_generate_never_succeeds (u : AuthUser) (q : GenQuery)
    (newId : Nat) (newSessionId : String) (now : Time) (s : Store) :
    (∀ sess img,
        (generate u q newId newSessionId now s).1 ≠
          GenResult.success sess img) ∧
      (generate u q newId newSessionId now s).2 = s := by
  refine ⟨fun sess img => ?_, ?_⟩ <;>
    unfold generate <;>
    repeat' split <;>
    first
      | rfl
      | (try simp_all [qrRequiredOk])

/-- Helper: the findOne predicate of the mark route holds exactly when
the record's unique-index key equals the queried key. -/
lemma findOneKey_iff (sid cid : Nat) (d : Time) (r : AttendanceRecord) :
    findOneKey sid cid d r = true ↔ attKey r = (sid, cid, d) := by
  simp [findOneKey, attKey, and_assoc]

/-- Helper: two records collide on the unique index exactly when their
keys agree. -/
lemma sameKey_iff (a b : AttendanceRecord) :
    sameKey a b = true ↔ attKey a = attKey b := by
  simp [sameKey, attKey, and_assoc]

/-- Helper: markUpsert preserves the key-uniqueness invariant of the
attendance collection. -/
lemma markUpsert_preserves_attUnique (u : AuthUser) (sid cid : Nat)
    (d : Time) (st : AttStatus) (notes : Option String) (now : Time)
    (s : Store) (h : attUnique s) :
    attUnique (markUpsert u sid cid d st notes now s).2 := by
  unfold attUnique at h ⊢
  unfold markUpsert
  split
  next existing hf =>
      split
      next hall =>
          refine List.pairwise_cons.mpr
            ⟨?_, h.sublist (List.eraseP_sublist _)⟩
          intro b hb hk
          have hb2 := List.all_eq_true.mp hall b hb
          have hb3 : sameKey b (updateRecord existing st notes now) = true :=
            (sameKey_iff _ _).mpr hk.symm
          rw [hb3] at hb2
          simp at hb2
      next => exact h
  next hf =>
      split
      next hall =>
          refine List.pairwise_cons.mpr ⟨?_, h⟩
          intro b hb hk
          have hb2 := List.all_eq_true.mp hall b hb
          have hb3 : sameKey b (newRecord u sid cid d st notes now) = true :=
            (sameKey_iff _ _).mpr hk.symm
          rw [hb3] at hb2
          simp at hb2
      next => exact h

/-- Helper: one mark call preserves the key-uniqueness invariant. -/
lemma mark_preserves_attUnique (u : AuthUser) (q : MarkQuery) (now : Time)
    (s : Store) (h : attUnique s) : attUnique (mark u q now s).2 := by
  unfold mark
  repeat' split
  all_goals
    first
      | exact h
      | exact markUpsert_preserves_attUnique _ _ _ _ _ _ _ _ h

/-- Helper: any sequence of mark calls preserves the key-uniqueness
invariant. -/
lemma markMany_preserves_attUnique (calls : List MarkCall) (s : Store)
    (h : attUnique s) : attUnique (markMany calls s) := by
  induction calls generalizing s with
  | nil => simpa [markMany] using h
  | cons c rest ih =>
      have h1 := mark_preserves_attUnique c.user c.query c.now s h
      simpa [markMany, List.foldl_cons] using ih _ h1

/-- Helper: in a key-unique list the number of records with any given
key is at most one. -/
lemma countP_attKey_le_one (l : List AttendanceRecord)
    (k : Nat × Nat × Time)
    (h : l.Pairwise fun a b => attKey a ≠ attKey b) :
    l.countP (fun r => decide (attKey r = k)) ≤ 1 := by
  induction l with
  | nil => simp
  | cons a t ih =>
      have hpc := List.pairwise_cons.mp h
      rw [List.countP_cons]
      by_cases hk : attKey a = k
      · have h0 : t.countP (fun r => decide (attKey r = k)) = 0 := by
          rw [List.countP_eq_zero]
          intro x hx
          simp only [decide_eq_true_eq]
          rw [← hk]
          exact fun he => hpc.1 x hx he.symm
        simp [h0, hk]
      · simpa [hk] using ih hpc.2

/-- C1: over every sequence of mark calls starting from a store that
satisfies the compound unique index of the attendance schema, at most
one attendance record exists for any (student, course, date) triple:
the update path replaces the found record in place and the create path
is accepted by the store only when its key collides with no stored
record, exactly as the unique index enforces. -/
theorem C1_at_most_one_attendance_record (calls : List MarkCall)
    (s : Store) (h : attUnique s) (sid cid : Nat) (d : Time) :
    (markMany calls s).attendance.countP
      (fun r => decide (attKey r = (sid, cid, d))) ≤ 1 :=
  countP_attKey_le_one _ _ (markMany_preserves_attUnique calls s h)

/-- Witness for C1 at a concrete input: two further mark calls against
the store already holding one record for (10, 20, day 0) leave at most
one record for that triple. -/
theorem C1_at_most_one_attendance_record_witness :
    attUnique fxMarkStore ∧
      (markMany
          [⟨⟨1, Role.admin⟩, ⟨some 10, some 20, some 0, some "late", none⟩, 5⟩,
            ⟨⟨30, Role.lecturer⟩,
              ⟨some 10, some 20, some 0, some "absent", some "n"⟩, 6⟩]
          fxMarkStore).attendance.countP
        (fun r => decide (attKey r = (10, 20, 0))) ≤ 1 :=
  ⟨by simp [attUnique, fxMarkStore],
    C1_at_most_one_attendance_record _ fxMarkStore
      (by simp [attUnique, fxMarkStore]) 10 20 0⟩

/-- Helper: in a key-unique list, after erasing the hit of a findOne
lookup, no remaining record matches the looked-up key. -/
lemma eraseP_all_not_findOneKey (l : List AttendanceRecord)
    (sid cid : Nat) (d : Time)
    (h : l.Pairwise fun a b => attKey a ≠ attKey b) :
    ∀ x ∈ l.eraseP (findOneKey sid cid d),
      findOneKey sid cid d x = false := by
  induction l with
  | nil => intro x hx; simp at hx
  | cons a t ih =>
      have hpc := List.pairwise_cons.mp h
      by_cases hp : findOneKey sid cid d a = true
      · rw [List.eraseP_cons_of_pos hp]
        intro x hx
        have hka := (findOneKey_iff sid cid d a).mp hp
        cases hpx : findOneKey sid cid d x with
        | false => rfl
        | true =>
            have hkx := (findOneKey_iff sid cid d x).mp hpx
            exact absurd (hka.trans hkx.symm) (hpc.1 x hx)
      · rw [List.eraseP_cons_of_neg hp]
        intro x hx
        rcases List.mem_cons.mp hx with rfl | hx2
        · simpa using hp
        · exact ih hpc.2 x hx2

/-- Helper: under the uniqueness invariant, an update of a found record
whose stored date is already day-normalized passes the unique-index
check against all other stored records. -/
lemma update_all_check (s : Store) (sid cid : Nat) (d : Time)
    (st : AttStatus) (notes : Option String) (now : Time)
    (existing : AttendanceRecord) (hu : attUnique s)
    (hfind : s.attendance.find? (findOneKey sid cid d) = some existing)
    (hnorm : startOfDay existing.date = existing.date) :
    (s.attendance.eraseP (findOneKey sid cid d)).all
      (fun r => !(sameKey r (updateRecord existing st notes now))) = true := by
  rw [List.all_eq_true]
  intro r hr
  have hfo := eraseP_all_not_findOneKey s.attendance sid cid d hu r hr
  have hke : attKey existing = (sid, cid, d) :=
    (findOneKey_iff sid cid d existing).mp (List.find?_some hfind)
  have hkup : attKey (updateRecord existing st notes now) = (sid, cid, d) := by
    have h1 : attKey (updateRecord existing st notes now) = attKey existing := by
      simp [updateRecord, attKey, hnorm]
    rw [h1, hke]
  cases hsk : sameKey r (updateRecord existing st notes now) with
  | false => simp [hsk]
  | true =>
      have h2 := (sameKey_iff _ _).mp hsk
      rw [hkup] at h2
      have h3 : findOneKey sid cid d r = true :=
        (findOneKey_iff sid cid d r).mpr h2
      rw [h3] at hfo
      cases hfo

/-- Counterexample to C5 as stated: the store holds the record for
(student 10, course 20, day 0) with marking actor 7, session reference 1
and note "orig".  Actor 2 (an admin, so with marking rights) marks the
same triple with status late and no note; the call succeeds, but the
stored record keeps the ORIGINAL marking actor 7 (not 2), the original
session reference 1 (the route has no session parameter at all) and the
original note - only the status (and the update timestamp) changed, so
"status, note, actor, session reference all replaced" fails. -/
theorem C5_counterexample :
    (mark ⟨2, Role.admin⟩ ⟨some 10, some 20, some 0, some "late", none⟩ 5
        fxMarkStore).1 =
      MarkResult.updated
        ⟨10, 20, 0, AttStatus.late, some "orig", 7, some 1, 0, 5⟩ ∧
      (mark ⟨2, Role.admin⟩ ⟨some 10, some 20, some 0, some "late", none⟩ 5
          fxMarkStore).2.attendance.map AttendanceRecord.markedBy = [7] :=
  ⟨rfl, rfl⟩

/-- C5 as amended: when a mark call finds an existing record for the
(studentId, courseId, date) key (and the stored date is already
day-normalized, as every record written by this route is), the record is
overwritten in place and the call succeeds - but only the status is
always replaced; the note is replaced only when a truthy notes parameter
is supplied; the marking actor and the originating session reference are
NOT replaced and keep the original record's values. -/
theorem C5_amended_update_keeps_actor_and_session (u : AuthUser)
    (sid cid : Nat) (d : Time) (stStr : String) (st : AttStatus)
    (notes : Option String) (now : Time) (s : Store) (stu : User)
    (existing : AttendanceRecord)
    (hst : parseAttStatus stStr = some st)
    (hstu : s.users.find? (fun x => x.id == sid) = some stu)
    (hrole : stu.role = Role.student)
    (hcourse : (s.courses.find? (fun c => c.id == cid)).isSome = true)
    (hu : attUnique s)
    (hfind : s.attendance.find? (findOneKey sid cid d) = some existing)
    (hnorm : startOfDay existing.date = existing.date) :
    mark u ⟨some sid, some cid, some d, some stStr, notes⟩ now s =
      (MarkResult.updated (updateRecord existing st notes now),
        { s with
            attendance := updateRecord existing st notes now ::
              s.attendance.eraseP (findOneKey sid cid d) }) ∧
      (updateRecord existing st notes now).status = st ∧
      (updateRecord existing st notes now).notes =
        (if strTruthy notes then notes else existing.notes) ∧
      (updateRecord existing st notes now).markedBy = existing.markedBy ∧
      (updateRecord existing st notes now).qrSessionId =
        existing.qrSessionId := by
  refine ⟨?_, rfl, rfl, rfl, rfl⟩
  have hall := update_all_check s sid cid d st notes now existing hu hfind hnorm
  rcases hc : s.courses.find? (fun c => c.id == cid) with _ | c
  · rw [hc] at hcourse
    simp at hcourse
  · simp only [mark, hst, hstu, hc, if_pos hrole]
    simp only [markUpsert, hfind, if_pos hall]

/-- Witness for the amended C5 at a concrete input: admin 2 re-marks
(10, 20, day 0) as late with no note; the stored record keeps actor 7,
session 1 and note "orig". -/
theorem C5_amended_update_keeps_actor_and_session_witness :
    (attUnique fxMarkStore ∧
        fxMarkStore.attendance.find? (findOneKey 10 20 0) = some fxRec ∧
        startOfDay fxRec.date = fxRec.date) ∧
      mark ⟨2, Role.admin⟩ ⟨some 10, some 20, some 0, some "late", none⟩ 5
          fxMarkStore =
        (MarkResult.updated (updateRecord fxRec AttStatus.late none 5),
          { fxMarkStore with
              attendance := updateRecord fxRec AttStatus.late none 5 ::
                fxMarkStore.attendance.eraseP (findOneKey 10 20 0) }) ∧
      (updateRecord fxRec AttStatus.late none 5).markedBy = fxRec.markedBy ∧
      (updateRecord fxRec AttStatus.late none 5).qrSessionId =
        fxRec.qrSessionId :=
  ⟨⟨by simp [attUnique, fxMarkStore], rfl, by decide⟩,
    ((C5_amended_update_keeps_actor_and_session ⟨2, Role.admin⟩ 10 20 0
        "late" AttStatus.late none 5 fxMarkStore ⟨10, "S", Role.student⟩
        fxRec rfl rfl rfl rfl (by simp [attUnique, fxMarkStore]) rfl
        (by decide)).1),
    (C5_amended_update_keeps_actor_and_session ⟨2, Role.admin⟩ 10 20 0
        "late" AttStatus.late none 5 fxMarkStore ⟨10, "S", Role.student⟩
        fxRec rfl rfl rfl rfl (by simp [attUnique, fxMarkStore]) rfl
        (by decide)).2.2.2⟩

end EdUTEND
